import Mathlib

/-
Verification of the WMI sampler (checks/libs/wmi/sampler.py).

Shallow embedding conventions:
  * Python dicts are association lists; `CaseInsensitiveDict` lower-cases
    its keys on every read/write/containment check (ciSet/ciGet/ciContains).
  * Values returned by the service are `WValue` (None, a unicode string, or
    a number).  Python `float(...)` is `pyFloat`: it succeeds on numbers and
    on numeric strings, raises ValueError on non-numeric strings, and raises
    TypeError on None.  The numeric domain is abstracted to `Int` (no claim
    depends on fractional values, only on which of the coerced/original
    value is stored).
  * Raised exceptions are the `PyError` side of `Except PyError _`;
    in-place mutations of `self` are explicit state passing on `WMISampler`.
  * The COM service is an oracle: each `ExecQuery` call is given a
    `QueryOutcome` (either raw rows, or a raised `pywintypes.com_error`).
-/

instance {ε α : Type} [DecidableEq ε] [DecidableEq α] : DecidableEq (Except ε α)
  | .error a, .error b =>
    if h : a = b then .isTrue (congrArg Except.error h)
    else .isFalse (fun hc => h (Except.error.inj hc))
  | .error _, .ok _ => .isFalse (fun hc => Except.noConfusion hc)
  | .ok _, .error _ => .isFalse (fun hc => Except.noConfusion hc)
  | .ok a, .ok b =>
    if h : a = b then .isTrue (congrArg Except.ok h)
    else .isFalse (fun hc => h (Except.ok.inj hc))

/-- Python exceptions that the embedded code can raise or catch. -/
inductive PyError where
  | valueError
  | typeError
  | indexError
deriving Repr, DecidableEq

/-- Values held in WMI properties and parsed items: Python None, str, or a
number (Python float, abstracted to Int). -/
inductive WValue where
  | null : WValue
  | str (s : String) : WValue
  | num (n : Int) : WValue
deriving Repr, DecidableEq

/-- The single-quote character, written with an escape. -/
def squote : String := "\x27"

/-- Python `str.lower()` (character-wise; the ASCII identifiers WMI uses
are all this needs). -/
def lowerStr (s : String) : String := ⟨s.data.map Char.toLower⟩

/-- Python `str.upper()` (character-wise). -/
def upperStr (s : String) : String := ⟨s.data.map Char.toUpper⟩

/-- Key normalisation of CaseInsensitiveDict: every read/write/containment
goes through `key.lower()`. -/
def ciKey (k : String) : String := lowerStr k

/-- CaseInsensitiveDict.__contains__ : `key.lower() in dict`. -/
def ciContains (d : List (String × α)) (k : String) : Bool :=
  d.any (fun p => p.1 == ciKey k)

/-- CaseInsensitiveDict.__setitem__ : Python dict update semantics — replace
the value in place when the (lower-cased) key is present, else append. -/
def ciSet (d : List (String × α)) (k : String) (v : α) : List (String × α) :=
  if ciContains d k then
    d.map (fun p => if p.1 == ciKey k then (p.1, v) else p)
  else
    d ++ [(ciKey k, v)]

/-- CaseInsensitiveDict.get : lookup under the lower-cased key. -/
def ciGet (d : List (String × α)) (k : String) : Option α :=
  (d.find? (fun p => p.1 == ciKey k)).map (fun p => p.2)

/-- An item of a parsed sample: a CaseInsensitiveDict from property name to
value (`results` rows of `_parse_results`). -/
abbrev Item := List (String × WValue)

/-- One property of a raw WMI result row (`wmi_property` in the source):
its Name, Value, and the Qualifiers_ collection as (Name, Value) pairs. -/
structure WMIProperty where
  name : String
  value : WValue
  qualifiers : List (String × WValue)
deriving Repr, DecidableEq

/-- Lookup in the plain (case-sensitive) dict built by the comprehension
`{q.Name: q.Value for q in wmi_property.Qualifiers_}`; a later duplicate
Name overwrites an earlier one. -/
def qualLookup (qs : List (String × WValue)) (k : String) : Option WValue :=
  (qs.reverse.find? (fun p => p.1 == k)).map (fun p => p.2)

/-- Value of one decimal digit character. -/
def digitVal (c : Char) : Option Nat :=
  if 48 ≤ c.toNat ∧ c.toNat ≤ 57 then some (c.toNat - 48) else none

/-- Accumulate decimal digits; fails on the first non-digit. -/
def digitsToNat : List Char → Option Nat → Option Nat
  | [], acc => acc
  | c :: cs, acc =>
    match digitVal c, acc with
    | some d, some n => digitsToNat cs (some (n * 10 + d))
    | some d, none => digitsToNat cs (some d)
    | none, _ => none

/-- Numeric coercion of a string, the success cases of Python
`float(some_string)` (abstracted to optionally signed decimal integer
literals; the exact accepted grammar is immaterial to every claim — only
that some strings coerce and others do not). -/
def pyParseFloat (s : String) : Option Int :=
  match s.data with
  | [] => none
  | c :: cs =>
    if c == Char.ofNat 45 then
      match cs with
      | [] => none
      | _ => (digitsToNat cs none).map (fun n => -(n : Int))
    else (digitsToNat s.data none).map (fun n => (n : Int))

/-- Python `float(value)` on a service value: numbers coerce to themselves,
numeric strings parse, non-numeric strings raise ValueError, and None
raises TypeError. -/
def pyFloat : WValue → Except PyError WValue
  | WValue.null => .error .typeError
  | WValue.num n => .ok (WValue.num n)
  | WValue.str s =>
    match pyParseFloat s with
    | some n => .ok (WValue.num n)
    | none => .error .valueError

/-- The `try: item[...] = float(value) except ValueError: item[...] = value`
step of `_parse_results`: only ValueError is caught; any other exception
(TypeError from a None value) propagates. -/
def storeValue (v : WValue) : Except PyError WValue :=
  match pyFloat v with
  | .ok f => .ok f
  | .error .valueError => .ok v
  | .error e => .error e

/-- The item initialisation loop of `_parse_results`: every declared
property is set to None before the returned properties are read. -/
def initItem (propertyNames : List String) : Item :=
  propertyNames.foldl (fun it n => ciSet it n WValue.null) []

/-- Result of processing the properties of one row: the counter-type cache,
the log of qualifier fetches (each element one access of `Qualifiers_`, in
order), and the item built so far. -/
structure PropsOut where
  cache : List (String × WValue)
  fetches : List String
  item : Item
deriving Repr, DecidableEq

/-- The inner `for wmi_property in res.Properties_` loop of
`_parse_results`: fetch the qualifiers when `includes_qualifiers` holds and
the property is not yet in the counter-type cache, record a "CounterType"
qualifier in the cache when present (absence records nothing), then store
the float-coerced value (ValueError falls back to the original value, any
other exception aborts the whole call). -/
def parseProps (includesQualifiers : Bool) (cache : List (String × WValue))
    (fetches : List String) (item : Item) :
    List WMIProperty → Except PyError PropsOut
  | [] => .ok ⟨cache, fetches, item⟩
  | p :: rest =>
    let shouldFetch := includesQualifiers && !(ciContains cache p.name)
    let fetches2 := if shouldFetch then fetches ++ [p.name] else fetches
    let cache2 :=
      if shouldFetch then
        match qualLookup p.qualifiers "CounterType" with
        | some ct => ciSet cache p.name ct
        | none => cache
      else cache
    match storeValue p.value with
    | .ok v => parseProps includesQualifiers cache2 fetches2 (ciSet item p.name v) rest
    | .error e => .error e

/-- Result of `_parse_results`: the parsed items, the final counter-type
cache, and the accumulated qualifier-fetch log. -/
structure ParseOut where
  items : List Item
  cache : List (String × WValue)
  fetches : List String
deriving Repr, DecidableEq

/-- `WMISampler._parse_results`: per row, start from an item holding every
declared property as None and process the row's properties. -/
def parseResults (propertyNames : List String) (includesQualifiers : Bool)
    (cache : List (String × WValue)) (fetches : List String) :
    List (List WMIProperty) → Except PyError ParseOut
  | [] => .ok ⟨[], cache, fetches⟩
  | row :: rest =>
    match parseProps includesQualifiers cache fetches (initItem propertyNames) row with
    | .error e => .error e
    | .ok po =>
      match parseResults propertyNames includesQualifiers po.cache po.fetches rest with
      | .error e => .error e
      | .ok pr => .ok ⟨po.item :: pr.items, pr.cache, pr.fetches⟩

/-- Character-list test: does `s` start with `pat`? -/
def lstartsWith : List Char → List Char → Bool
  | [], _ => true
  | _ :: _, [] => false
  | p :: ps, c :: cs => p == c && lstartsWith ps cs

/-- Character-list substring containment, scanning every suffix. -/
def lcontainsSub (pat : List Char) : List Char → Bool
  | [] => lstartsWith pat []
  | c :: cs => lstartsWith pat (c :: cs) || lcontainsSub pat cs

/-- Python `pat in s` on strings: substring containment. -/
def containsSub (s pat : String) : Bool := lcontainsSub pat.data s.data

/-- The sampler's per-instance state (`self`).  The connection target
fields (host, namespace, username, password) only feed the process-wide
connection cache and are modelled with `_get_connection` below; `logger`
calls are modelled as the `warned` counters of the query results. -/
structure WMISampler where
  class_name : String
  property_names : List String
  filters : List (String × String)
  is_raw_perf_class : Bool
  property_counter_types : Option (List (String × WValue))
  current_sample : Option (List Item)
  previous_sample : Option (List Item)
deriving Repr, DecidableEq

/-- `WMISampler.__init__`: detect a raw performance class by the substring
test `"_PERFRAWDATA_" in class_name.upper()`, extend the property list with
the two required metadata properties for such a class, and start with no
counter-type cache and no samples. -/
def initSampler (class_name : String) (property_names : List String)
    (filters : List (String × String)) : WMISampler :=
  let is_raw := containsSub (upperStr class_name) "_PERFRAWDATA_"
  let props :=
    if is_raw then property_names ++ ["Timestamp_Sys100NS", "Frequency_Sys100NS"]
    else property_names
  ⟨class_name, props, filters, is_raw, none, none, none⟩

/-- `WMISampler.__len__` = `len(self.current_sample)`: defined only when a
current sample exists (`len(None)` raises TypeError, modelled as none). -/
def sampler_len (s : WMISampler) : Option Nat :=
  s.current_sample.map List.length

/-- `WMISampler.__iter__`.  For a raw performance class the loop header is
`for current_wmi_object, previous_wmi_object in izip(self.previous_sample,
self.current_sample)` — `izip` pairs positionally and truncates to the
shorter sample, and the FIRST component of each pair, an element of
`previous_sample`, is the one bound to the name `current_wmi_object` and
yielded.  Iterating a `None` sample raises TypeError, modelled as none. -/
def sampler_iter (s : WMISampler) : Option (List Item) :=
  if s.is_raw_perf_class then
    match s.previous_sample, s.current_sample with
    | some prev, some cur => some ((prev.zip cur).map (fun pc => pc.1))
    | _, _ => none
  else
    s.current_sample

/-- Rendering of one parsed value inside `str(self.current_sample)`.  The
exact Python repr text is schematic here (no claim depends on it); what
matters is that the rendering is total. -/
def reprWValue : WValue → String
  | WValue.null => "None"
  | WValue.str s => "u" ++ squote ++ s ++ squote
  | WValue.num n => toString n ++ ".0"

/-- Rendering of one item (a dict) inside `str(self.current_sample)`. -/
def reprItem (it : Item) : String :=
  "\x7b" ++ String.intercalate ", "
    (it.map (fun p => squote ++ p.1 ++ squote ++ ": " ++ reprWValue p.2)) ++ "\x7d"

/-- `WMISampler.__str__` = `str(self.current_sample)`.  Python `str` is
total: `str(None)` is the text `None`, and a present sample renders as the
list repr. -/
def sampler_str (s : WMISampler) : String :=
  match s.current_sample with
  | none => "None"
  | some items =>
    "[" ++ String.intercalate ", " (items.map reprItem) ++ "]"

/-- The recursive `build_where_clause` of `_format_filter`, expressed on
the reversed filter list: `fltr.pop()` removes the LAST entry first, so the
head of the reversed list is the entry popped first.  Returns the rendered
clause together with what remains in the (reversed) list object after the
call; `pop` on an empty list raises IndexError, modelled as none. -/
def bwc_rev : List (String × String) → Option (String × List (String × String))
  | [] => none
  | (prop, value) :: rest =>
    if rest.isEmpty then
      some (prop ++ " = " ++ squote ++ value ++ squote, rest)
    else
      match bwc_rev rest with
      | none => none
      | some (more, rem) =>
        some (prop ++ " = " ++ squote ++ value ++ squote ++ " AND " ++ more, rem)

/-- `WMISampler._format_filter`.  The first component is the returned
string (empty for a falsy filter list, otherwise a leading `" WHERE "` and
the recursively built clause); the second component is the contents of the
caller's filter-list object AFTER the call — `build_where_clause` pops the
list destructively, so the mutation is part of the result. -/
def _format_filter (filters : List (String × String)) :
    Option (String × List (String × String)) :=
  if filters.isEmpty then some ("", filters)
  else
    match bwc_rev filters.reverse with
    | none => none
    | some (clause, rem) => some (" WHERE " ++ clause, rem.reverse)

/-- The WQL text built at the top of `_query`:
`"Select {props} from {class_name}{filters}"`. -/
def buildWql (class_name : String) (property_names : List String)
    (filterClause : String) : String :=
  "Select " ++ String.intercalate "," property_names ++ " from " ++ class_name
    ++ filterClause

/-- One `ExecQuery` call as seen by the sampler: either raw rows, or a
raised `pywintypes.com_error` (connection/query/transport failure). -/
inductive QueryOutcome where
  | rows (rs : List (List WMIProperty))
  | comError
deriving Repr, DecidableEq

/-- Result of one `_query` call: the returned parsed rows, the sampler
state after the call's mutations (filters consumed by `_format_filter`,
counter-type cache initialised/updated), the WQL text that was issued, the
number of warning-level log calls, and the qualifier-fetch log. -/
structure QueryOut where
  results : List Item
  sampler : WMISampler
  wql : String
  warned : Nat
  fetches : List String
deriving Repr, DecidableEq

/-- `WMISampler._query`.  The WQL string is built first (destructively
consuming `self.filters`); `includes_qualifiers` holds exactly when the
counter-type cache is still None, in which case the cache is initialised to
an empty dict BEFORE the service is called; a `pywintypes.com_error` from
`ExecQuery` is caught, logged as a warning and turned into empty results;
any other exception (from parsing) propagates. -/
def _query (s : WMISampler) (o : QueryOutcome) : Except PyError QueryOut :=
  match _format_filter s.filters with
  | none => .error .indexError
  | some (filterClause, filtersAfter) =>
    let wql := buildWql s.class_name s.property_names filterClause
    let s0 := { s with filters := filtersAfter }
    let includesQualifiers := s0.property_counter_types.isNone
    let cache0 := if includesQualifiers then [] else s0.property_counter_types.getD []
    let s1 := { s0 with property_counter_types := some cache0 }
    match o with
    | .comError => .ok ⟨[], s1, wql, 1, []⟩
    | .rows rows =>
      match parseResults s1.property_names includesQualifiers cache0 [] rows with
      | .error e => .error e
      | .ok out =>
        .ok ⟨out.items, { s1 with property_counter_types := some out.cache }, wql, 0,
          out.fetches⟩

/-- Python truthiness of `self.previous_sample` in `sample()`: falsy when
it is None or an empty list. -/
def pyFalsySample : Option (List Item) → Bool
  | none => true
  | some items => items.isEmpty

/-- Result of one `sample()` call: the sampler state afterwards, the number
of queries issued, the number of warning-level log calls, and the combined
qualifier-fetch log. -/
structure SampleOut where
  sampler : WMISampler
  queries : Nat
  warned : Nat
  fetches : List String
deriving Repr, DecidableEq

/-- `WMISampler.sample`.  When the class is a raw performance class and the
previous sample is falsy, a bootstrap query first becomes the current
sample; then previous ← current and a fresh query becomes the current
sample.  Each query's outcome is drawn from the oracle at consecutive
indices. -/
def sample (s : WMISampler) (oracle : Nat → QueryOutcome) (idx : Nat) :
    Except PyError SampleOut :=
  if s.is_raw_perf_class && pyFalsySample s.previous_sample then
    match _query s (oracle idx) with
    | .error e => .error e
    | .ok q1 =>
      let s1 := { q1.sampler with current_sample := some q1.results }
      let s2 := { s1 with previous_sample := s1.current_sample }
      match _query s2 (oracle (idx + 1)) with
      | .error e => .error e
      | .ok q2 =>
        .ok ⟨{ q2.sampler with current_sample := some q2.results }, 2,
          q1.warned + q2.warned, q1.fetches ++ q2.fetches⟩
  else
    let s1 := { s with previous_sample := s.current_sample }
    match _query s1 (oracle idx) with
    | .error e => .error e
    | .ok q =>
      .ok ⟨{ q.sampler with current_sample := some q.results }, 1, q.warned, q.fetches⟩

/-- The process-wide class attributes `_wmi_locators` and
`_wmi_connections`, plus a counter of `ConnectServer` calls; locator and
connection objects are modelled by the numeric identity they receive at
establishment time. -/
structure WMIGlobal where
  wmi_locators : List (String × Nat)
  wmi_connections : List (String × Nat)
  connect_calls : Nat
deriving Repr, DecidableEq

/-- The cache key `"{host}:{namespace}:{username}"` — the password is NOT
part of the key. -/
def connection_key (host nspace username : String) : String :=
  host ++ ":" ++ nspace ++ ":" ++ username

/-- Plain (case-sensitive) dict lookup used by the connection cache. -/
def lookupStr (d : List (String × Nat)) (k : String) : Option Nat :=
  (d.find? (fun p => p.1 == k)).map (fun p => p.2)

/-- `WMISampler._get_connection`: on a cache hit return the cached
connection object unchanged; on a miss, dispatch a locator and establish a
connection via `ConnectServer(host, namespace, username, password)` (one
establishment call, giving the new connection a fresh identity), cache
both under the key, and return the connection.  The password parameter
feeds only the establishment call, never the key. -/
def _get_connection (host nspace username _password : String) (g : WMIGlobal) :
    Nat × WMIGlobal :=
  let key := connection_key host nspace username
  match lookupStr g.wmi_connections key with
  | some conn => (conn, g)
  | none =>
    let locator := g.connect_calls
    let conn := g.connect_calls
    (conn, ⟨g.wmi_locators ++ [(key, locator)],
            g.wmi_connections ++ [(key, conn)],
            g.connect_calls + 1⟩)

/-! ### Helper lemmas about the WHERE-clause rendering -/

/-- Rendering of one conjunct, `property = 'value'`, as the spec describes
it, for comparison with the recursive implementation. -/
def conjunct (p : String × String) : String :=
  p.1 ++ " = " ++ squote ++ p.2 ++ squote

/-- Joining conjuncts with `" AND "`, as the spec describes it. -/
def joinAnd : List String → String
  | [] => ""
  | [c] => c
  | c :: rest => c ++ " AND " ++ joinAnd rest

lemma bwc_rev_eq (l : List (String × String)) (h : l ≠ []) :
    bwc_rev l = some (joinAnd (l.map conjunct), []) := by
  induction l with
  | nil => exact absurd rfl h
  | cons x rest ih =>
    obtain ⟨prop, value⟩ := x
    cases rest with
    | nil => simp [bwc_rev, joinAnd, conjunct]
    | cons y t =>
      rw [bwc_rev, ih (List.cons_ne_nil y t)]
      simp [joinAnd, conjunct, String.append_assoc]

lemma format_filter_eq (l : List (String × String)) (h : l ≠ []) :
    _format_filter l = some (" WHERE " ++ joinAnd (l.reverse.map conjunct), []) := by
  have hrev : l.reverse ≠ [] := by
    simpa using h
  simp only [_format_filter, List.isEmpty_eq_true]
  rw [if_neg h, bwc_rev_eq l.reverse hrev]
  simp

lemma format_filter_total (l : List (String × String)) :
    ∃ p, _format_filter l = some p := by
  by_cases h : l = []
  · subst h; exact ⟨("", []), rfl⟩
  · exact ⟨_, format_filter_eq l h⟩

/-! ### Claims C2 and C3: the filter rendering -/

/-- Claim C2, counterexample: rendering the one-element filter list
`[{a: 1}]` returns the clause but leaves the caller's list object EMPTY —
the second component of `_format_filter`, the list contents after the call,
is `[]`, which differs from the input list.  The claim's frame condition
(the filter list is unchanged by the call) is therefore false. -/
theorem format_filter_mutation_cex :
    _format_filter [("a", "1")] = some (" WHERE a = \x271\x27", []) ∧
    ([] : List (String × String)) ≠ [("a", "1")] := by
  constructor
  · rfl
  · decide

/-- Claim C2 (amended): the rendering is deterministic (a pure function of
the list contents in this embedding), but it destructively consumes its
argument: after a call on a non-empty filter list the list object is left
empty, so a subsequent call on the same list object renders no WHERE
clause at all. -/
theorem format_filter_deterministic_but_consuming (l : List (String × String))
    (h : l ≠ []) :
    (_format_filter l).map Prod.snd = some [] ∧
    _format_filter [] = some ("", []) := by
  rw [format_filter_eq l h]
  exact ⟨rfl, rfl⟩

/-- Claim C2 witness: the amended statement at the filter list
`[{Name: _Total}]`. -/
theorem format_filter_deterministic_but_consuming_witness :
    (_format_filter [("Name", "_Total")]).map Prod.snd = some [] ∧
    _format_filter [] = some ("", []) :=
  format_filter_deterministic_but_consuming [("Name", "_Total")] (by decide)

/-- Claim C3, counterexample: for the two-element filter list
`[{a: 1}, {b: 2}]` the rendered WHERE clause lists the conjuncts in
REVERSE input order — `b = '2' AND a = '1'` — not in the claimed
left-to-right order `a = '1' AND b = '2'`. -/
theorem format_filter_order_cex :
    _format_filter [("a", "1"), ("b", "2")] =
      some (" WHERE b = \x272\x27 AND a = \x271\x27", []) ∧
    (" WHERE b = \x272\x27 AND a = \x271\x27" : String) ≠
      " WHERE a = \x271\x27 AND b = \x272\x27" := by
  constructor
  · rfl
  · decide

/-- Claim C3 (amended): for every non-empty filter list the built WHERE
clause renders the conjuncts `p = 'v'` in REVERSE left-to-right order
(last mapping first), joined by `" AND "`; for the empty filter list no
WHERE clause at all is produced. -/
theorem format_filter_reverse_order (l : List (String × String)) (h : l ≠ []) :
    _format_filter l = some (" WHERE " ++ joinAnd (l.reverse.map conjunct), []) ∧
    _format_filter [] = some ("", []) :=
  ⟨format_filter_eq l h, rfl⟩

/-- Claim C3 witness: the amended statement at `[{a: 1}, {b: 2}]`, whose
reverse-order clause evaluates to `" WHERE b = '2' AND a = '1'"`. -/
theorem format_filter_reverse_order_witness :
    _format_filter [("a", "1"), ("b", "2")] =
      some (" WHERE " ++ joinAnd ([("a", "1"), ("b", "2")].reverse.map conjunct), []) ∧
    _format_filter [] = some ("", []) :=
  format_filter_reverse_order [("a", "1"), ("b", "2")] (by decide)

/-! ### Helper lemmas about the case-insensitive dict and the parser -/

lemma any_map_keyfix (d : List (String × α)) (x y : String) (v : α) :
    ((d.map (fun p => if p.1 == x then (p.1, v) else p)).any (fun p => p.1 == y))
      = d.any (fun p => p.1 == y) := by
  induction d with
  | nil => rfl
  | cons a t ih =>
    simp only [List.map_cons, List.any_cons, ih]
    by_cases ha : a.1 == x <;> simp [ha]

lemma ciContains_ciSet_mono (d : List (String × α)) (k nm : String) (v : α)
    (h : ciContains d nm = true) : ciContains (ciSet d k v) nm = true := by
  unfold ciSet
  by_cases hk : ciContains d k
  · rw [if_pos hk]
    unfold ciContains at h ⊢
    rw [any_map_keyfix]
    exact h
  · rw [if_neg hk]
    unfold ciContains at h ⊢
    simp [List.any_append, h]

lemma find?_map_keyfix (d : List (String × α)) (x : String) (v : α)
    (h : d.any (fun p => p.1 == x) = true) :
    ((d.map (fun p => if p.1 == x then (p.1, v) else p)).find?
      (fun p => p.1 == x)).map (fun p => p.2) = some v := by
  induction d with
  | nil => simp at h
  | cons a t ih =>
    by_cases ha : (a.1 == x) = true
    · have hival : (fun p => if p.1 == x then (p.1, v) else p) a = (a.1, v) := by
        simp [ha]
      simp only [List.map_cons, hival]
      rw [List.find?_cons_of_pos _ (by simpa using ha)]
      rfl
    · have hb : (a.1 == x) = false := by simpa using ha
      simp only [List.any_cons, hb, Bool.false_or] at h
      simp only [List.map_cons, hb, Bool.false_eq_true, if_false]
      rw [List.find?_cons_of_neg _ (by simp [hb])]
      exact ih h

lemma find?_append_self (d : List (String × α)) (x : String) (v : α)
    (h : d.any (fun p => p.1 == x) = false) :
    ((d ++ [(x, v)]).find? (fun p => p.1 == x)).map (fun p => p.2) = some v := by
  induction d with
  | nil => simp
  | cons a t ih =>
    simp only [List.any_cons, Bool.or_eq_false_iff] at h
    simp only [List.cons_append]
    rw [List.find?_cons_of_neg _ (by simp [h.1])]
    exact ih h.2

lemma ciGet_ciSet_same (d : List (String × α)) (k : String) (v : α) :
    ciGet (ciSet d k v) k = some v := by
  unfold ciGet ciSet
  by_cases hk : ciContains d k
  · rw [if_pos hk]
    exact find?_map_keyfix d (ciKey k) v hk
  · rw [if_neg hk]
    have h0 : ciContains d k = false := by
      cases hcc : ciContains d k
      · rfl
      · exact absurd hcc hk
    exact find?_append_self d (ciKey k) v h0

lemma parseProps_no_qual (props : List WMIProperty) :
    ∀ cache fetches item out,
    parseProps false cache fetches item props = .ok out →
    out.fetches = fetches ∧ out.cache = cache := by
  induction props with
  | nil =>
    intro cache fetches item out h
    simp only [parseProps] at h
    cases h
    exact ⟨rfl, rfl⟩
  | cons p rest ih =>
    intro cache fetches item out h
    simp only [parseProps, Bool.false_and, Bool.false_eq_true, if_false] at h
    cases hsv : storeValue p.value with
    | ok v =>
      rw [hsv] at h
      exact ih _ _ _ _ h
    | error e =>
      rw [hsv] at h
      cases h

lemma parseResults_no_qual (rows : List (List WMIProperty)) :
    ∀ propertyNames cache fetches out,
    parseResults propertyNames false cache fetches rows = .ok out →
    out.fetches = fetches ∧ out.cache = cache := by
  induction rows with
  | nil =>
    intro pn cache fetches out h
    simp only [parseResults] at h
    cases h
    exact ⟨rfl, rfl⟩
  | cons row rest ih =>
    intro pn cache fetches out h
    simp only [parseResults] at h
    cases hpp : parseProps false cache fetches (initItem pn) row with
    | ok po =>
      rw [hpp] at h
      dsimp only at h
      cases hpr : parseResults pn false po.cache po.fetches rest with
      | ok pr =>
        rw [hpr] at h
        cases h
        obtain ⟨hf1, hc1⟩ := parseProps_no_qual row _ _ _ _ hpp
        obtain ⟨hf2, hc2⟩ := ih _ _ _ _ hpr
        exact ⟨hf2.trans hf1, hc2.trans hc1⟩
      | error e =>
        rw [hpr] at h
        cases h
    | error e =>
      rw [hpp] at h
      cases h

lemma parseProps_cached (props : List WMIProperty) :
    ∀ includes cache fetches item nm out,
    ciContains cache nm = true →
    parseProps includes cache fetches item props = .ok out →
    out.fetches.count nm = fetches.count nm ∧ ciContains out.cache nm = true := by
  induction props with
  | nil =>
    intro includes cache fetches item nm out hnm h
    simp only [parseProps] at h
    cases h
    exact ⟨rfl, hnm⟩
  | cons p rest ih =>
    intro includes cache fetches item nm out hnm h
    simp only [parseProps] at h
    by_cases hcp : ciContains cache p.name = true
    · simp only [hcp, Bool.not_true, Bool.and_false, Bool.false_eq_true, if_false] at h
      cases hsv : storeValue p.value with
      | ok v =>
        rw [hsv] at h
        exact ih _ _ _ _ _ _ hnm h
      | error e =>
        rw [hsv] at h
        cases h
    · have hcpf : ciContains cache p.name = false := by
        cases hc : ciContains cache p.name
        · rfl
        · exact absurd hc hcp
      have hpn : p.name ≠ nm := by
        intro heq
        rw [heq] at hcpf
        rw [hnm] at hcpf
        cases hcpf
      simp only [hcpf, Bool.not_false, Bool.and_true] at h
      cases includes with
      | false =>
        simp only [Bool.false_eq_true, if_false] at h
        cases hsv : storeValue p.value with
        | ok v =>
          rw [hsv] at h
          exact ih _ _ _ _ _ _ hnm h
        | error e =>
          rw [hsv] at h
          cases h
      | true =>
        simp only [if_true] at h
        have hcount : (fetches ++ [p.name]).count nm = fetches.count nm := by
          rw [List.count_append]
          simp [List.count_cons, hpn]
        cases hql : qualLookup p.qualifiers "CounterType" with
        | some ct =>
          rw [hql] at h
          cases hsv : storeValue p.value with
          | ok v =>
            rw [hsv] at h
            obtain ⟨h1, h2⟩ := ih _ _ _ _ _ _ (ciContains_ciSet_mono cache p.name nm ct hnm) h
            exact ⟨h1.trans hcount, h2⟩
          | error e =>
            rw [hsv] at h
            cases h
        | none =>
          rw [hql] at h
          cases hsv : storeValue p.value with
          | ok v =>
            rw [hsv] at h
            obtain ⟨h1, h2⟩ := ih _ _ _ _ _ _ hnm h
            exact ⟨h1.trans hcount, h2⟩
          | error e =>
            rw [hsv] at h
            cases h

lemma parseResults_cached (rows : List (List WMIProperty)) :
    ∀ propertyNames includes cache fetches nm out,
    ciContains cache nm = true →
    parseResults propertyNames includes cache fetches rows = .ok out →
    out.fetches.count nm = fetches.count nm ∧ ciContains out.cache nm = true := by
  induction rows with
  | nil =>
    intro pn includes cache fetches nm out hnm h
    simp only [parseResults] at h
    cases h
    exact ⟨rfl, hnm⟩
  | cons row rest ih =>
    intro pn includes cache fetches nm out hnm h
    simp only [parseResults] at h
    cases hpp : parseProps includes cache fetches (initItem pn) row with
    | ok po =>
      rw [hpp] at h
      dsimp only at h
      cases hpr : parseResults pn includes po.cache po.fetches rest with
      | ok pr =>
        rw [hpr] at h
        cases h
        obtain ⟨h1, h2⟩ := parseProps_cached row _ _ _ _ _ _ hnm hpp
        obtain ⟨h3, h4⟩ := ih _ _ _ _ _ _ h2 hpr
        exact ⟨h3.trans h1, h4⟩
      | error e =>
        rw [hpr] at h
        cases h
    | error e =>
      rw [hpp] at h
      cases h

lemma query_fields_preserved (s : WMISampler) (o : QueryOutcome) (out : QueryOut)
    (h : _query s o = .ok out) :
    out.sampler.previous_sample = s.previous_sample ∧
    out.sampler.current_sample = s.current_sample ∧
    out.sampler.is_raw_perf_class = s.is_raw_perf_class ∧
    out.sampler.property_names = s.property_names ∧
    out.sampler.class_name = s.class_name := by
  obtain ⟨⟨fc, fa⟩, hff⟩ := format_filter_total s.filters
  simp only [_query, hff] at h
  cases o with
  | comError =>
    cases h
    exact ⟨rfl, rfl, rfl, rfl, rfl⟩
  | rows rows =>
    dsimp only at h
    cases hpr : parseResults ({ s with filters := fa } : WMISampler).property_names
        ({ s with filters := fa } : WMISampler).property_counter_types.isNone
        (if ({ s with filters := fa } : WMISampler).property_counter_types.isNone then []
         else ({ s with filters := fa } : WMISampler).property_counter_types.getD [])
        [] rows with
    | ok pr =>
      rw [hpr] at h
      cases h
      exact ⟨rfl, rfl, rfl, rfl, rfl⟩
    | error e =>
      rw [hpr] at h
      cases h

lemma query_cached_no_fetch (s : WMISampler) (c : List (String × WValue))
    (o : QueryOutcome) (out : QueryOut)
    (hc : s.property_counter_types = some c) (h : _query s o = .ok out) :
    out.fetches = [] ∧ out.sampler.property_counter_types = some c := by
  obtain ⟨⟨fc, fa⟩, hff⟩ := format_filter_total s.filters
  simp only [_query, hff] at h
  have hc0 : ({ s with filters := fa } : WMISampler).property_counter_types = some c := hc
  rw [hc0] at h
  simp only [Option.isNone_some, Bool.false_eq_true, if_false, Option.getD_some] at h
  cases o with
  | comError =>
    cases h
    exact ⟨rfl, rfl⟩
  | rows rows =>
    dsimp only at h
    cases hpr : parseResults ({ s with filters := fa } : WMISampler).property_names false c
        [] rows with
    | ok pr =>
      rw [hpr] at h
      cases h
      obtain ⟨hf, hcc⟩ := parseResults_no_qual rows _ _ _ _ hpr
      exact ⟨hf, by simp [hcc]⟩
    | error e =>
      rw [hpr] at h
      cases h

lemma query_comError_ok (s : WMISampler) :
    ∃ out, _query s .comError = .ok out := by
  obtain ⟨⟨fc, fa⟩, hff⟩ := format_filter_total s.filters
  refine ⟨⟨[], ⟨s.class_name, s.property_names, fa, s.is_raw_perf_class,
      some (if s.property_counter_types.isNone then [] else s.property_counter_types.getD []),
      s.current_sample, s.previous_sample⟩,
      buildWql s.class_name s.property_names fc, 1, []⟩, ?_⟩
  simp only [_query, hff]

lemma query_comError_fields (s : WMISampler) (out : QueryOut)
    (h : _query s .comError = .ok out) :
    out.results = [] ∧ out.warned = 1 ∧ out.fetches = [] := by
  obtain ⟨⟨fc, fa⟩, hff⟩ := format_filter_total s.filters
  simp only [_query, hff] at h
  cases h
  exact ⟨rfl, rfl, rfl⟩

lemma query_first_comError_cache (s : WMISampler) (out : QueryOut)
    (hc : s.property_counter_types = none) (h : _query s .comError = .ok out) :
    out.sampler.property_counter_types = some [] := by
  obtain ⟨⟨fc, fa⟩, hff⟩ := format_filter_total s.filters
  simp only [_query, hff] at h
  have hc0 : ({ s with filters := fa } : WMISampler).property_counter_types = none := hc
  rw [hc0] at h
  cases h
  rfl

/-! ### Claim C4: qualifier fetches -/

/-- Claim C4, counterexample: on a fresh sampler (counter-type cache still
None) a first query whose result set has TWO rows of a property `X`
carrying no "CounterType" qualifier performs the qualifier fetch TWICE —
once per row — because the absence of the qualifier is never recorded in
the cache.  This refutes "at most once per property across the sampler's
lifetime" and "that absence is recorded so the property is never
re-probed". -/
theorem qualifier_refetch_cex :
    (initSampler "C" ["X"] []).property_counter_types = none ∧
    (_query (initSampler "C" ["X"] [])
        (.rows [[⟨"X", .str "1", []⟩], [⟨"X", .str "1", []⟩]])).toOption.map
      QueryOut.fetches = some ["X", "X"] := by
  constructor
  · rfl
  · decide

/-- Claim C4 (amended): qualifier fetches happen only during the sampler's
first query (once the counter-type cache is a dict, a query performs no
fetches at all), and within the first query a property already present in
the cache — i.e. one whose "CounterType" was recorded from an earlier row —
is never fetched again; but the absence of a "CounterType" qualifier is not
recorded, so a property without one may be fetched once per row of the
first result set. -/
theorem qualifier_fetch_amended :
    (∀ (s : WMISampler) (c : List (String × WValue)) (o : QueryOutcome) (out : QueryOut),
      s.property_counter_types = some c → _query s o = .ok out → out.fetches = []) ∧
    (∀ (propertyNames : List String) (includes : Bool)
      (cache : List (String × WValue)) (fetches : List String)
      (rows : List (List WMIProperty)) (nm : String) (out : ParseOut),
      ciContains cache nm = true →
      parseResults propertyNames includes cache fetches rows = .ok out →
      out.fetches.count nm = fetches.count nm) := by
  constructor
  · intro s c o out hc h
    exact (query_cached_no_fetch s c o out hc h).1
  · intro pn includes cache fetches rows nm out hnm h
    exact (parseResults_cached rows pn includes cache fetches nm out hnm h).1

/-- A sampler state whose counter-type cache is already a dict, used to
instantiate the amended claim C4. -/
def c4SamplerW : WMISampler := ⟨"C", ["X"], [], false, some [], none, none⟩

/-- The result of a (non-first) query on `c4SamplerW`. -/
def c4QueryOutW : QueryOut :=
  (_query c4SamplerW (.rows [[⟨"X", .str "1", []⟩]])).toOption.getD
    ⟨[], c4SamplerW, "", 0, []⟩

/-- The result of parsing one row with property `X` already cached. -/
def c4ParseOutW : ParseOut :=
  (parseResults ["X"] true [("x", .num 0)] [] [[⟨"X", .str "1", []⟩]]).toOption.getD
    ⟨[], [], []⟩

/-- Claim C4 witness: the amended statement at concrete inputs — a query
after the first performs no fetch, and a cached property is not re-fetched
during parsing. -/
theorem qualifier_fetch_amended_witness :
    c4QueryOutW.fetches = [] ∧
    c4ParseOutW.fetches.count "X" = ([] : List String).count "X" :=
  ⟨qualifier_fetch_amended.1 c4SamplerW [] (.rows [[⟨"X", .str "1", []⟩]])
      c4QueryOutW rfl (by decide),
   qualifier_fetch_amended.2 ["X"] true [("x", .num 0)] []
      [[⟨"X", .str "1", []⟩]] "X" c4ParseOutW (by decide) (by decide)⟩

/-! ### Claim C9: a failed first query freezes the qualifier machinery -/

/-- Claim C9: when the first-ever query (counter-type cache still None)
fails with a COM error, the cache has already been initialised to an empty
dict before the failure, the query returns empty results with one warning
and no fetches; and from any state whose cache is a dict, every query runs
with qualifier fetching disabled — no fetch is performed and the cache is
left exactly as it was, so an empty cache stays empty forever. -/
theorem first_query_error_freezes_qualifiers :
    (∀ (s : WMISampler) (out : QueryOut),
      s.property_counter_types = none → _query s .comError = .ok out →
      out.sampler.property_counter_types = some [] ∧ out.results = [] ∧
        out.warned = 1 ∧ out.fetches = []) ∧
    (∀ (s : WMISampler) (c : List (String × WValue)) (o : QueryOutcome) (out : QueryOut),
      s.property_counter_types = some c → _query s o = .ok out →
      out.fetches = [] ∧ out.sampler.property_counter_types = some c) := by
  constructor
  · intro s out hn h
    obtain ⟨h1, h2, h3⟩ := query_comError_fields s out h
    exact ⟨query_first_comError_cache s out hn h, h1, h2, h3⟩
  · intro s c o out hc h
    exact query_cached_no_fetch s c o out hc h

/-- The state after a fresh sampler's first query fails with a COM error. -/
def c9QueryOutW : QueryOut :=
  (_query (initSampler "C" ["X"] []) .comError).toOption.getD
    ⟨[], initSampler "C" ["X"] [], "", 0, []⟩

/-- The result of a subsequent successful query on that state, with the
service offering a row whose property carries a "CounterType" qualifier. -/
def c9QueryOut2W : QueryOut :=
  (_query c9QueryOutW.sampler
    (.rows [[⟨"X", .str "1", [("CounterType", .num 272696576)]⟩]])).toOption.getD
    ⟨[], c9QueryOutW.sampler, "", 0, []⟩

/-- Claim C9 witness: after a failed first query the cache is the empty
dict, and a later query — even one whose rows do carry a CounterType
qualifier — performs no fetch and leaves the cache empty. -/
theorem first_query_error_freezes_qualifiers_witness :
    (c9QueryOutW.sampler.property_counter_types = some [] ∧ c9QueryOutW.results = [] ∧
      c9QueryOutW.warned = 1 ∧ c9QueryOutW.fetches = []) ∧
    (c9QueryOut2W.fetches = [] ∧ c9QueryOut2W.sampler.property_counter_types = some []) :=
  ⟨first_query_error_freezes_qualifiers.1 (initSampler "C" ["X"] []) c9QueryOutW
      rfl (by decide),
   first_query_error_freezes_qualifiers.2 c9QueryOutW.sampler []
      (.rows [[⟨"X", .str "1", [("CounterType", .num 272696576)]⟩]]) c9QueryOut2W
      (by decide) (by decide)⟩

/-! ### Claim C7: numeric coercion of parsed values -/

/-- Claim C7, counterexample: the coercion `float(value)` is guarded only
by `except ValueError`; for a property whose returned value is None (a
legitimate WMI null), `float(None)` raises TypeError, which is NOT caught
and propagates out of parsing, out of `_query` (which catches only
`pywintypes.com_error`) and out of `sample()`.  This refutes "a coercion
failure ... never raises out of parsing". -/
theorem parse_null_raises_cex :
    sample (initSampler "C" ["X"] []) (fun _ => .rows [[⟨"X", WValue.null, []⟩]]) 0
      = .error .typeError := by
  decide

/-- Claim C7 (amended): a numeric value is stored as itself; a
numeric-coercible string is stored coerced to a float; a non-numeric
string raises ValueError, which IS caught so the original value is stored
unchanged; but a None value raises TypeError, which is not caught and
propagates out of parsing. -/
theorem coercion_fallback_amended :
    (∀ (includes : Bool) (cache : List (String × WValue)) (fetches : List String)
      (item : Item) (nm : String) (n : Int) (quals : List (String × WValue)) (out : PropsOut),
      parseProps includes cache fetches item [⟨nm, WValue.num n, quals⟩] = .ok out →
      ciGet out.item nm = some (WValue.num n)) ∧
    (∀ (includes : Bool) (cache : List (String × WValue)) (fetches : List String)
      (item : Item) (nm sv : String) (n : Int) (quals : List (String × WValue)) (out : PropsOut),
      pyParseFloat sv = some n →
      parseProps includes cache fetches item [⟨nm, WValue.str sv, quals⟩] = .ok out →
      ciGet out.item nm = some (WValue.num n)) ∧
    (∀ (includes : Bool) (cache : List (String × WValue)) (fetches : List String)
      (item : Item) (nm sv : String) (quals : List (String × WValue)) (out : PropsOut),
      pyParseFloat sv = none →
      parseProps includes cache fetches item [⟨nm, WValue.str sv, quals⟩] = .ok out →
      ciGet out.item nm = some (WValue.str sv)) ∧
    (∀ (includes : Bool) (cache : List (String × WValue)) (fetches : List String)
      (item : Item) (nm : String) (quals : List (String × WValue)),
      parseProps includes cache fetches item [⟨nm, WValue.null, quals⟩]
        = .error .typeError) := by
  refine ⟨?_, ?_, ?_, ?_⟩
  · intro includes cache fetches item nm n quals out h
    simp only [parseProps, storeValue, pyFloat] at h
    cases h
    exact ciGet_ciSet_same item nm (WValue.num n)
  · intro includes cache fetches item nm sv n quals out hpf h
    simp only [parseProps, storeValue, pyFloat, hpf] at h
    cases h
    exact ciGet_ciSet_same item nm (WValue.num n)
  · intro includes cache fetches item nm sv quals out hpf h
    simp only [parseProps, storeValue, pyFloat, hpf] at h
    cases h
    exact ciGet_ciSet_same item nm (WValue.str sv)
  · intro includes cache fetches item nm quals
    simp only [parseProps, storeValue, pyFloat]

/-- Parsing one property whose value is the number 5. -/
def c7OutNum : PropsOut :=
  (parseProps true [] [] [] [⟨"X", .num 5, []⟩]).toOption.getD ⟨[], [], []⟩

/-- Parsing one property whose value is the numeric string "1536". -/
def c7OutStrNum : PropsOut :=
  (parseProps true [] [] [] [⟨"X", .str "1536", []⟩]).toOption.getD ⟨[], [], []⟩

/-- Parsing one property whose value is the non-numeric string "C:". -/
def c7OutStrRaw : PropsOut :=
  (parseProps true [] [] [] [⟨"X", .str "C:", []⟩]).toOption.getD ⟨[], [], []⟩

/-- Claim C7 witness: the amended statement at concrete values — `5` stays
numeric, `"1536"` coerces to the float `1536`, `"C:"` is preserved
unchanged, and a None value raises TypeError. -/
theorem coercion_fallback_amended_witness :
    ciGet c7OutNum.item "X" = some (WValue.num 5) ∧
    ciGet c7OutStrNum.item "X" = some (WValue.num 1536) ∧
    ciGet c7OutStrRaw.item "X" = some (WValue.str "C:") ∧
    parseProps true [] [] [] [⟨"X", WValue.null, []⟩] = .error .typeError :=
  ⟨coercion_fallback_amended.1 true [] [] [] "X" 5 [] c7OutNum (by decide),
   coercion_fallback_amended.2.1 true [] [] [] "X" "1536" 1536 [] c7OutStrNum
      (by decide) (by decide),
   coercion_fallback_amended.2.2.1 true [] [] [] "X" "C:" [] c7OutStrRaw
      (by decide) (by decide),
   coercion_fallback_amended.2.2.2 true [] [] [] "X" []⟩

/-! ### Claim C8: the connection cache -/

lemma lookupStr_append_self (d : List (String × Nat)) (k : String) (c : Nat)
    (h : lookupStr d k = none) : lookupStr (d ++ [(k, c)]) k = some c := by
  induction d with
  | nil => simp [lookupStr, List.find?]
  | cons a t ih =>
    unfold lookupStr at h ⊢
    cases ha : (a.1 == k) with
    | true =>
      simp only [List.find?, ha] at h
      cases h
    | false =>
      simp only [List.find?, ha] at h
      simp only [List.cons_append, List.find?, ha]
      exact ih h

/-- Claim C8: two connection requests with the same (host, namespace,
username) — the password is not part of the cache key and may even differ —
give the same connection object: the second call returns exactly the
first call's connection with the global state unchanged (a pure cache
hit), and the pair of calls performs at most one `ConnectServer`
establishment in total. -/
theorem connection_cache_reuse (g : WMIGlobal) (host nspace username pw1 pw2 : String) :
    _get_connection host nspace username pw2 ((_get_connection host nspace username pw1 g).2)
      = ((_get_connection host nspace username pw1 g).1,
         (_get_connection host nspace username pw1 g).2) ∧
    ((_get_connection host nspace username pw1 g).2).connect_calls ≤ g.connect_calls + 1 := by
  cases hk : lookupStr g.wmi_connections (connection_key host nspace username) with
  | some c =>
    simp only [_get_connection, hk]
    exact ⟨trivial, Nat.le_succ g.connect_calls⟩
  | none =>
    simp only [_get_connection, hk]
    rw [lookupStr_append_self g.wmi_connections _ g.connect_calls hk]
    exact ⟨rfl, Nat.le_refl _⟩

/-! ### Claims C1, C5, C6, C10: the sampler lifecycle -/

/-- Claim C1 (code-bug evaluation): a raw-performance sampler whose two
queries returned the distinct rows `X = "a"` (bootstrap, now the previous
sample) and `X = "b"` (the current sample).  The loop header of
`__iter__` binds the name `current_wmi_object` to the FIRST component of
`izip(self.previous_sample, self.current_sample)` — an element of the
PREVIOUS sample — and yields it, so iteration yields the `"a"` item of the
previous sample while the current sample holds the distinct `"b"` item,
contradicting the method's own docstring ("Iterate on the current sample's
WMI Objects"). -/
theorem iter_raw_yields_previous_cex :
    (sample (initSampler "A_PerfRawData_B" ["X"] [])
        (fun n => match n with
          | 0 => .rows [[⟨"X", .str "a", []⟩]]
          | _ => .rows [[⟨"X", .str "b", []⟩]]) 0).toOption.map
      (fun r => sampler_iter r.sampler)
      = some (some [[("x", WValue.str "a"), ("timestamp_sys100ns", WValue.null),
          ("frequency_sys100ns", WValue.null)]]) ∧
    (sample (initSampler "A_PerfRawData_B" ["X"] [])
        (fun n => match n with
          | 0 => .rows [[⟨"X", .str "a", []⟩]]
          | _ => .rows [[⟨"X", .str "b", []⟩]]) 0).toOption.map
      (fun r => r.sampler.current_sample)
      = some (some [[("x", WValue.str "b"), ("timestamp_sys100ns", WValue.null),
          ("frequency_sys100ns", WValue.null)]]) ∧
    ([[("x", WValue.str "a"), ("timestamp_sys100ns", WValue.null),
        ("frequency_sys100ns", WValue.null)]] : List Item)
      ≠ [[("x", WValue.str "b"), ("timestamp_sys100ns", WValue.null),
        ("frequency_sys100ns", WValue.null)]] := by
  refine ⟨?_, ?_, ?_⟩ <;> decide

/-- Claim C6: on a raw-performance sampler with no previous sample at all,
`sample()` issues two queries (bootstrap plus real) and leaves both the
current and the previous sample populated; on a non-raw sampler every
`sample()` call issues exactly one query and shifts previous ← prior
current. -/
theorem sample_bootstrap_and_shift (s t : WMISampler) (oracle : Nat → QueryOutcome)
    (idx : Nat) (r1 r2 : SampleOut) :
    (s.is_raw_perf_class = true → s.previous_sample = none →
      sample s oracle idx = .ok r1 →
      r1.queries = 2 ∧ r1.sampler.current_sample.isSome = true ∧
        r1.sampler.previous_sample.isSome = true) ∧
    (t.is_raw_perf_class = false →
      sample t oracle idx = .ok r2 →
      r2.queries = 1 ∧ r2.sampler.previous_sample = t.current_sample) := by
  constructor
  · intro hraw hprev hs
    have hcond : (s.is_raw_perf_class && pyFalsySample s.previous_sample) = true := by
      rw [hraw, hprev]; rfl
    simp only [sample, hcond, if_true] at hs
    split at hs
    · cases hs
    · rename_i q1 hq1
      split at hs
      · cases hs
      · rename_i q2 hq2
        cases hs
        refine ⟨rfl, by simp, ?_⟩
        have hf := (query_fields_preserved _ _ _ hq2).1
        simp only at hf
        simp [hf]
  · intro hraw ht
    have hcond : (t.is_raw_perf_class && pyFalsySample t.previous_sample) = false := by
      rw [hraw]; rfl
    simp only [sample, hcond, Bool.false_eq_true, if_false] at ht
    split at ht
    · cases ht
    · rename_i q hq
      cases ht
      refine ⟨rfl, ?_⟩
      have hf := (query_fields_preserved _ _ _ hq).1
      simp only at hf
      simp [hf]

lemma sample_raw_eq (s : WMISampler) (oracle : Nat → QueryOutcome) (idx : Nat)
    (hcond : (s.is_raw_perf_class && pyFalsySample s.previous_sample) = true) :
    sample s oracle idx =
      match _query s (oracle idx) with
      | .error e => .error e
      | .ok q1 =>
        match _query { q1.sampler with current_sample := some q1.results, previous_sample := some q1.results } (oracle (idx + 1)) with
        | .error e => .error e
        | .ok q2 => .ok ⟨{ q2.sampler with current_sample := some q2.results }, 2, q1.warned + q2.warned, q1.fetches ++ q2.fetches⟩ := by
  simp only [sample, hcond, if_true]

lemma sample_fmt_eq (s : WMISampler) (oracle : Nat → QueryOutcome) (idx : Nat)
    (hcond : (s.is_raw_perf_class && pyFalsySample s.previous_sample) = false) :
    sample s oracle idx =
      match _query { s with previous_sample := s.current_sample } (oracle idx) with
      | .error e => .error e
      | .ok q => .ok ⟨{ q.sampler with current_sample := some q.results }, 1, q.warned, q.fetches⟩ := by
  simp only [sample, hcond, Bool.false_eq_true, if_false]

/-- Claim C5: when every query of a `sample()` call raises a COM
query/transport error, `sample()` returns without raising, the current
sample becomes the empty sample so iteration yields zero items, and at
least one warning is logged.  (The second hypothesis is the execution
invariant that a raw sampler with a truthy previous sample also has a
current sample; it holds of every reachable state.) -/
theorem sample_query_error_yields_empty (s : WMISampler) (oracle : Nat → QueryOutcome)
    (idx : Nat)
    (herr : ∀ n, oracle n = .comError)
    (hinv : s.is_raw_perf_class = true → pyFalsySample s.previous_sample = false →
      s.current_sample ≠ none) :
    (sample s oracle idx).toOption.map (fun r => r.sampler.current_sample)
      = some (some []) ∧
    (sample s oracle idx).toOption.map (fun r => sampler_iter r.sampler)
      = some (some []) ∧
    (sample s oracle idx).toOption.map (fun r => Nat.ble 1 r.warned) = some true := by
  cases hb : (s.is_raw_perf_class && pyFalsySample s.previous_sample) with
  | true =>
    obtain ⟨q1, hq1⟩ := query_comError_ok s
    obtain ⟨hr1, hw1, hf1⟩ := query_comError_fields s q1 hq1
    obtain ⟨q2, hq2⟩ := query_comError_ok { q1.sampler with current_sample := some q1.results, previous_sample := some q1.results }
    obtain ⟨hr2, hw2, hf2⟩ := query_comError_fields _ q2 hq2
    obtain ⟨hp2, hc2, hraw2, -, -⟩ := query_fields_preserved _ _ _ hq2
    obtain ⟨hp1, hc1, hraw1, -, -⟩ := query_fields_preserved _ _ _ hq1
    rw [sample_raw_eq s oracle idx hb, herr idx, hq1]
    dsimp only
    rw [herr (idx + 1), hq2]
    dsimp only
    simp only at hp2 hraw2
    have hraws : s.is_raw_perf_class = true := by
      cases hsr : s.is_raw_perf_class
      · rw [hsr] at hb
        simp at hb
      · rfl
    simp only [Except.toOption, Option.map_some]
    refine ⟨by simp [hr2], ?_, by simp [hw1, hw2]⟩
    simp only [sampler_iter, hraw2, hraw1, hraws, if_true, hp2, hr1, hr2]
    simp
  | false =>
    obtain ⟨q, hq⟩ := query_comError_ok { s with previous_sample := s.current_sample }
    obtain ⟨hr, hw, hf⟩ := query_comError_fields _ q hq
    obtain ⟨hp, hc, hraw, -, -⟩ := query_fields_preserved _ _ _ hq
    rw [sample_fmt_eq s oracle idx hb, herr idx, hq]
    dsimp only
    simp only at hp hraw
    simp only [Except.toOption, Option.map_some]
    refine ⟨by simp [hr], ?_, by simp [hw]⟩
    cases hraws : s.is_raw_perf_class with
    | false =>
      simp only [sampler_iter, hraw, hraws, Bool.false_eq_true, if_false, hr]
      simp
    | true =>
      have hfalsy : pyFalsySample s.previous_sample = false := by
        cases hpf : pyFalsySample s.previous_sample
        · rfl
        · rw [hraws, hpf] at hb
          cases hb
      obtain ⟨l, hl⟩ := Option.ne_none_iff_exists'.mp (hinv hraws hfalsy)
      simp only [sampler_iter, hraw, hraws, if_true, hp, hl, hr]
      simp

/-- Claim C5 witness: the statement at a fresh raw-performance sampler
whose every query raises a COM error. -/
theorem sample_query_error_yields_empty_witness :
    (sample (initSampler "A_PerfRawData_B" ["X"] []) (fun _ => .comError) 0).toOption.map
      (fun r => r.sampler.current_sample) = some (some []) ∧
    (sample (initSampler "A_PerfRawData_B" ["X"] []) (fun _ => .comError) 0).toOption.map
      (fun r => sampler_iter r.sampler) = some (some []) ∧
    (sample (initSampler "A_PerfRawData_B" ["X"] []) (fun _ => .comError) 0).toOption.map
      (fun r => Nat.ble 1 r.warned) = some true :=
  sample_query_error_yields_empty (initSampler "A_PerfRawData_B" ["X"] [])
    (fun _ => .comError) 0 (fun _ => rfl)
    (fun _ h2 => absurd h2 (by decide))

/-- The result of the first `sample()` on a fresh raw-performance sampler
whose queries succeed with empty row sets. -/
def c6OutRawW : SampleOut :=
  (sample (initSampler "A_PerfRawData_B" ["X"] []) (fun _ => .rows []) 0).toOption.getD
    ⟨initSampler "" [] [], 0, 0, []⟩

/-- The result of the first `sample()` on a fresh formatted-class sampler
whose query succeeds with an empty row set. -/
def c6OutFmtW : SampleOut :=
  (sample (initSampler "C" ["X"] []) (fun _ => .rows []) 0).toOption.getD
    ⟨initSampler "" [] [], 0, 0, []⟩

/-- Claim C6 witness: the statement at a fresh raw sampler (two queries,
both buffers populated) and a fresh formatted sampler (one query, previous
shifted from the prior current, which was None). -/
theorem sample_bootstrap_and_shift_witness :
    (c6OutRawW.queries = 2 ∧ c6OutRawW.sampler.current_sample.isSome = true ∧
      c6OutRawW.sampler.previous_sample.isSome = true) ∧
    (c6OutFmtW.queries = 1 ∧
      c6OutFmtW.sampler.previous_sample = (initSampler "C" ["X"] []).current_sample) :=
  ⟨(sample_bootstrap_and_shift (initSampler "A_PerfRawData_B" ["X"] [])
      (initSampler "C" ["X"] []) (fun _ => .rows []) 0 c6OutRawW c6OutFmtW).1
      (by decide) rfl (by decide),
   (sample_bootstrap_and_shift (initSampler "A_PerfRawData_B" ["X"] [])
      (initSampler "C" ["X"] []) (fun _ => .rows []) 0 c6OutRawW c6OutFmtW).2
      (by decide) (by decide)⟩

/-! ### Claim C10: interfaces of a fresh sampler -/

/-- Claim C10, counterexample: on a freshly constructed sampler the current
sample is indeed None and `len()` is indeed undefined, but the string
conversion is TOTAL before any `sample()` call: `str(self.current_sample)`
is simply `str(None)`, the text `None` — Python `str` never raises here.
This refutes the claim's assertion that the string interface is only total
once a first `sample()` call has completed. -/
theorem fresh_sampler_str_total_cex :
    (initSampler "C" ["X"] []).current_sample = none ∧
    sampler_len (initSampler "C" ["X"] []) = none ∧
    sampler_str (initSampler "C" ["X"] []) = "None" :=
  ⟨rfl, rfl, rfl⟩

/-- Claim C10 (amended): on a freshly constructed sampler the current
sample is None and the length and iteration interfaces are undefined
(`len(None)` and iterating None raise TypeError); both become total once a
first `sample()` call completes without raising.  String conversion,
however, is total even before sampling — it renders the absent sample as
`None`. -/
theorem fresh_sampler_partiality (cn : String) (pn : List String)
    (fl : List (String × String)) (oracle : Nat → QueryOutcome) (idx : Nat)
    (out : SampleOut) :
    (initSampler cn pn fl).current_sample = none ∧
    sampler_len (initSampler cn pn fl) = none ∧
    sampler_iter (initSampler cn pn fl) = none ∧
    sampler_str (initSampler cn pn fl) = "None" ∧
    (sample (initSampler cn pn fl) oracle idx = .ok out →
      (sampler_len out.sampler).isSome = true ∧
        (sampler_iter out.sampler).isSome = true) := by
  have hcur : (initSampler cn pn fl).current_sample = none := rfl
  have hprev : (initSampler cn pn fl).previous_sample = none := rfl
  refine ⟨hcur, rfl, ?_, rfl, ?_⟩
  · cases hraw : (initSampler cn pn fl).is_raw_perf_class with
    | true => simp [sampler_iter, hraw, hprev]
    | false => simp [sampler_iter, hraw, hcur]
  · intro hs
    cases hraw : (initSampler cn pn fl).is_raw_perf_class with
    | true =>
      have hcond : ((initSampler cn pn fl).is_raw_perf_class &&
          pyFalsySample (initSampler cn pn fl).previous_sample) = true := by
        rw [hraw, hprev]; rfl
      rw [sample_raw_eq _ oracle idx hcond] at hs
      split at hs
      · cases hs
      · rename_i q1 hq1
        split at hs
        · cases hs
        · rename_i q2 hq2
          cases hs
          obtain ⟨hp2, -, hraw2, -, -⟩ := query_fields_preserved _ _ _ hq2
          obtain ⟨-, -, hraw1, -, -⟩ := query_fields_preserved _ _ _ hq1
          simp only at hp2 hraw2
          constructor
          · simp [sampler_len]
          · simp only [sampler_iter, hraw2, hraw1, hraw, if_true, hp2]
            simp
    | false =>
      have hcond : ((initSampler cn pn fl).is_raw_perf_class &&
          pyFalsySample (initSampler cn pn fl).previous_sample) = false := by
        rw [hraw]; rfl
      rw [sample_fmt_eq _ oracle idx hcond] at hs
      split at hs
      · cases hs
      · rename_i q hq
        cases hs
        obtain ⟨-, -, hraw1, -, -⟩ := query_fields_preserved _ _ _ hq
        simp only at hraw1
        constructor
        · simp [sampler_len]
        · simp only [sampler_iter, hraw1, hraw, Bool.false_eq_true, if_false]
          simp

/-- The result of a first `sample()` on a fresh formatted-class sampler,
used to instantiate the amended claim C10. -/
def c10OutW : SampleOut :=
  (sample (initSampler "C" ["X"] []) (fun _ => .rows [[⟨"X", .str "1", []⟩]]) 0).toOption.getD
    ⟨initSampler "" [] [], 0, 0, []⟩

/-- Claim C10 witness: the amended statement at a fresh sampler and a
successful first sample. -/
theorem fresh_sampler_partiality_witness :
    ((initSampler "C" ["X"] []).current_sample = none ∧
      sampler_len (initSampler "C" ["X"] []) = none ∧
      sampler_iter (initSampler "C" ["X"] []) = none ∧
      sampler_str (initSampler "C" ["X"] []) = "None" ∧
      (sample (initSampler "C" ["X"] []) (fun _ => .rows [[⟨"X", .str "1", []⟩]]) 0
          = .ok c10OutW →
        (sampler_len c10OutW.sampler).isSome = true ∧
          (sampler_iter c10OutW.sampler).isSome = true)) ∧
    (sampler_len c10OutW.sampler).isSome = true ∧
    (sampler_iter c10OutW.sampler).isSome = true :=
  ⟨fresh_sampler_partiality "C" ["X"] [] (fun _ => .rows [[⟨"X", .str "1", []⟩]]) 0 c10OutW,
   (fresh_sampler_partiality "C" ["X"] [] (fun _ => .rows [[⟨"X", .str "1", []⟩]]) 0
      c10OutW).2.2.2.2 (by decide)⟩
